import Mathlib

set_option maxRecDepth 8000

/-!
Shallow embedding of the Bitrix24 contact importer repository, which holds two
script variants: `import_contacts_streamlit.py` (the web app, embedded below at
top level) and `import_contacts.py` (the tkinter script, embedded in namespace
`Tk`). Spreadsheet cells and payload values are explicit inductive types;
remote HTTP calls are oracles passed in as functions, with `Except String`
modelling raised exceptions; Python dicts are ordered association lists.
-/

/-- Raw spreadsheet cell value (a pandas / openpyxl scalar): missing
(NaN / None), string, integer, boolean, or a timestamp carrying a calendar
date plus a time of day. -/
inductive CellValue where
  | null : CellValue
  | str : String → CellValue
  | int : Int → CellValue
  | boolean : Bool → CellValue
  | timestamp : Nat → Nat → Nat → Nat → Nat → Nat → CellValue
deriving DecidableEq, Repr

/-- A sanitized Python scalar as produced by `sanitize_value`: never a raw
timestamp (timestamps are turned into ISO date strings) and never None. -/
inductive PyVal where
  | str : String → PyVal
  | int : Int → PyVal
  | boolean : Bool → PyVal
deriving DecidableEq, Repr

/-- Python `str()` on a sanitized scalar. -/
def pyStr : PyVal → String
  | PyVal.str s => s
  | PyVal.int n => toString n
  | PyVal.boolean b => if b then "True" else "False"

/-- A data row: the cell value of each named column (`row[col]`). -/
abbrev Row := String → CellValue

/-- Python dict assignment `d[k] = v` on an insertion-ordered dict: update in
place when the key exists, append otherwise. -/
def dictSet {α : Type} (d : List (String × α)) (k : String) (v : α) :
    List (String × α) :=
  if d.any (fun p => decide (p.1 = k)) then
    d.map (fun p => if p.1 = k then (k, v) else p)
  else d ++ [(k, v)]

/-- Python dict lookup `d.get(k)`. -/
def dictGet {α : Type} (d : List (String × α)) (k : String) : Option α :=
  (d.find? (fun p => decide (p.1 = k))).map Prod.snd

/-- One multifield entry `{"VALUE": ..., "VALUE_TYPE": ...}`. -/
structure MultiEntry where
  VALUE : String
  VALUE_TYPE : String
deriving DecidableEq, Repr

/-- A value stored in the streamlit payload dict: a plain sanitized scalar or
a list of multifield entries (for EMAIL / PHONE). -/
inductive FieldValue where
  | scalar : PyVal → FieldValue
  | multi : List MultiEntry → FieldValue
deriving DecidableEq, Repr

/-- The `fields` payload dict built by the streamlit `build_payload`. -/
abbrev StPayload := List (String × FieldValue)

/-- Zero-padded two-digit rendering, as in Python `date.isoformat`. -/
def pad2 (n : Nat) : String :=
  if n < 10 then "0" ++ toString n else toString n

/-- Zero-padded four-digit rendering, as in Python `date.isoformat`. -/
def pad4 (n : Nat) : String :=
  if n < 10 then "000" ++ toString n
  else if n < 100 then "00" ++ toString n
  else if n < 1000 then "0" ++ toString n
  else toString n

/-- ISO calendar-date string `YYYY-MM-DD` (Python `v.date().isoformat()`). -/
def iso_date (y m d : Nat) : String :=
  pad4 y ++ "-" ++ pad2 m ++ "-" ++ pad2 d

/-- `sanitize_value` (import_contacts_streamlit.py, lines 56-62): NaN / None
becomes None, a timestamp becomes its ISO calendar-date string (time of day
truncated), every other scalar passes through unchanged. -/
def sanitize_value : CellValue → Option PyVal
  | CellValue.null => none
  | CellValue.timestamp y m d _ _ _ => some (PyVal.str (iso_date y m d))
  | CellValue.str s => some (PyVal.str s)
  | CellValue.int n => some (PyVal.int n)
  | CellValue.boolean b => some (PyVal.boolean b)

/-- Python `str.strip()` modelled over the string's characters: drop
whitespace from both ends. -/
def py_strip (s : String) : String :=
  ⟨((s.data.dropWhile Char.isWhitespace).reverse.dropWhile
      Char.isWhitespace).reverse⟩

/-- `item.get("VALUE_TYPE") or "WORK"`: the entry's VALUE_TYPE, with the empty
(falsy) string replaced by "WORK". -/
def vt_or_work (e : MultiEntry) : String :=
  if e.VALUE_TYPE = "" then "WORK" else e.VALUE_TYPE

/-- Loop body of `ensure_multifield` (import_contacts_streamlit.py, lines
64-77), with `seen` the set of (VALUE_TYPE, stripped VALUE) keys already
emitted. -/
def ensure_aux (seen : List (String × String)) : List MultiEntry → List MultiEntry
  | [] => []
  | item :: rest =>
    if py_strip item.VALUE = "" then ensure_aux seen rest
    else if (vt_or_work item, py_strip item.VALUE) ∈ seen then ensure_aux seen rest
    else ⟨py_strip item.VALUE, vt_or_work item⟩ ::
      ensure_aux ((vt_or_work item, py_strip item.VALUE) :: seen) rest

/-- `ensure_multifield`: drop blank values and duplicates, keeping order. -/
def ensure_multifield (lst : List MultiEntry) : List MultiEntry :=
  ensure_aux [] lst

/-- Loop of `build_payload` (import_contacts_streamlit.py, lines 118-129):
walk the mapping in order, skipping None cells, routing EMAIL / PHONE values
to pending lists and writing every other field directly. -/
def build_payload_loop (row : Row) :
    List (String × String) → StPayload → List MultiEntry → List MultiEntry →
    StPayload × List MultiEntry × List MultiEntry
  | [], fields, emails, phones => (fields, emails, phones)
  | (col, fid) :: rest, fields, emails, phones =>
    match sanitize_value (row col) with
    | none => build_payload_loop row rest fields emails phones
    | some raw =>
      if fid = "EMAIL" then
        build_payload_loop row rest fields (emails ++ [⟨pyStr raw, "WORK"⟩]) phones
      else if fid = "PHONE" then
        build_payload_loop row rest fields emails (phones ++ [⟨pyStr raw, "WORK"⟩])
      else
        build_payload_loop row rest (dictSet fields fid (FieldValue.scalar raw)) emails phones

/-- `build_payload` (import_contacts_streamlit.py, lines 113-135). -/
def build_payload (row : Row) (mapping : List (String × String)) : StPayload :=
  let r := build_payload_loop row mapping [] [] []
  let f1 := if r.2.1 ≠ [] then
    dictSet r.1 "EMAIL" (FieldValue.multi (ensure_multifield r.2.1)) else r.1
  if r.2.2 ≠ [] then
    dictSet f1 "PHONE" (FieldValue.multi (ensure_multifield r.2.2)) else f1

/-- Specification-style cleaning of one entry: strip the value, default the
value type to "WORK". -/
def clean_entry (e : MultiEntry) : MultiEntry :=
  ⟨py_strip e.VALUE, vt_or_work e⟩

/-- The deduplication key of an already-cleaned entry. -/
def entry_key (e : MultiEntry) : String × String :=
  (e.VALUE_TYPE, e.VALUE)

/-- Clean every entry and drop the blank ones. -/
def clean_list (l : List MultiEntry) : List MultiEntry :=
  (l.map clean_entry).filter (fun e => decide (e.VALUE ≠ ""))

/-- First-seen-order deduplication by `entry_key`: keep the head, delete every
later entry with the same key, recurse. -/
def dedup_first_seen : List MultiEntry → List MultiEntry
  | [] => []
  | e :: rest =>
    e :: dedup_first_seen (rest.filter (fun x => decide (entry_key x ≠ entry_key e)))
termination_by l => l.length
decreasing_by
  simp only [List.length_cons]
  exact Nat.lt_succ_of_le (List.length_filter_le _ _)

lemma ensure_aux_eq (l : List MultiEntry) : ∀ seen,
    ensure_aux seen l =
      dedup_first_seen ((clean_list l).filter (fun e => decide (entry_key e ∉ seen))) := by
  induction l with
  | nil => intro seen; simp [ensure_aux, clean_list, dedup_first_seen]
  | cons item rest ih =>
    intro seen
    by_cases hval : py_strip item.VALUE = ""
    · have hclean : clean_list (item :: rest) = clean_list rest := by
        simp [clean_list, clean_entry, hval]
      rw [hclean]
      show ensure_aux seen (item :: rest) = _
      rw [show ensure_aux seen (item :: rest) = ensure_aux seen rest by
        simp [ensure_aux, hval]]
      exact ih seen
    · have hclean : clean_list (item :: rest) = clean_entry item :: clean_list rest := by
        simp [clean_list, clean_entry, hval]
      have hkey : entry_key (clean_entry item) = (vt_or_work item, py_strip item.VALUE) := by
        simp [entry_key, clean_entry]
      rw [hclean]
      by_cases hseen : (vt_or_work item, py_strip item.VALUE) ∈ seen
      · have h1 : ensure_aux seen (item :: rest) = ensure_aux seen rest := by
          simp [ensure_aux, hval, hseen]
        rw [h1, List.filter_cons]
        have h2 : decide (entry_key (clean_entry item) ∉ seen) = false := by
          simp [hkey, hseen]
        rw [h2]
        simp only [Bool.false_eq_true, if_false]
        exact ih seen
      · have h1 : ensure_aux seen (item :: rest) =
            clean_entry item ::
              ensure_aux ((vt_or_work item, py_strip item.VALUE) :: seen) rest := by
          simp [ensure_aux, hval, hseen, clean_entry]
        rw [h1, List.filter_cons]
        have h2 : decide (entry_key (clean_entry item) ∉ seen) = true := by
          simp [hkey, hseen]
        rw [h2]
        simp only [if_true]
        rw [dedup_first_seen, List.filter_filter]
        congr 1
        rw [ih ((vt_or_work item, py_strip item.VALUE) :: seen)]
        congr 1
        apply List.filter_congr
        intro x _
        rw [hkey]
        by_cases ha : entry_key x = (vt_or_work item, py_strip item.VALUE)
        · simp [ha]
        · by_cases hb : entry_key x ∈ seen
          · simp [ha, hb]
          · simp [ha, hb]

lemma ensure_multifield_eq (l : List MultiEntry) :
    ensure_multifield l = dedup_first_seen (clean_list l) := by
  rw [ensure_multifield, ensure_aux_eq l []]
  congr 1
  simp

/-- Python `url.rstrip("/")` on a string modelled as a character list. -/
def rstrip_slash (s : List Char) : List Char :=
  (s.reverse.dropWhile (fun c => decide (c = '/'))).reverse

/-- The characters of `"/rest"`. -/
def rest_suffix : List Char := ['/', 'r', 'e', 's', 't']

/-- `normalize_webhook` (import_contacts_streamlit.py, lines 13-20): empty
input is returned as is; otherwise trailing slashes are stripped, `"/rest"`
is appended unless already a suffix, and a final `"/"` is appended. -/
def normalize_webhook (url : List Char) : List Char :=
  if url = [] then url
  else
    let u := rstrip_slash url
    (if rest_suffix <:+ u then u else u ++ rest_suffix) ++ ['/']

lemma rstrip_slash_append_slash (x : List Char) :
    rstrip_slash (x ++ ['/']) = rstrip_slash x := by
  simp [rstrip_slash, List.dropWhile]

lemma rstrip_slash_append_last (x : List Char) (c : Char) (h : c ≠ '/') :
    rstrip_slash (x ++ [c]) = x ++ [c] := by
  simp [rstrip_slash, List.dropWhile, h]

lemma rstrip_slash_of_rest_suffix (u : List Char) (h : rest_suffix <:+ u) :
    rstrip_slash u = u := by
  obtain ⟨w, hw⟩ := h
  have : u = (w ++ ['/', 'r', 'e', 's']) ++ ['t'] := by
    rw [← hw]; simp [rest_suffix]
  rw [this, rstrip_slash_append_last]
  decide

/-- Python truthiness of an optional string: None and "" are falsy. -/
def strOptTruthy : Option String → Bool
  | none => false
  | some s => decide (s ≠ "")

/-- A `crm.contact.list` filter body: the EMAIL and / or PHONE keys that were
put into the filter dict (`none` = key absent). -/
structure ContactFilter where
  EMAIL : Option String
  PHONE : Option String
deriving DecidableEq, Repr

/-- The inner `_query` of the streamlit `find_existing_contact` (lines 82-90):
post the filter, take `res[0]["ID"]` if the result list is non-empty. The
remote oracle returns the parsed result list, or a raised exception. -/
def query_step (remote : ContactFilter → Except String (List String))
    (f : ContactFilter) : Except String (Option String) :=
  match remote f with
  | Except.error e => Except.error e
  | Except.ok res => Except.ok res.head?

/-- The phone half of the streamlit `find_existing_contact` (lines 96-100),
threading the list of filters issued so far. -/
def phone_lookup (remote : ContactFilter → Except String (List String))
    (phone : Option String) (reqs : List ContactFilter) :
    List ContactFilter × Except String (Option String) :=
  if strOptTruthy phone then
    match query_step remote ⟨none, phone⟩ with
    | Except.error e => (reqs ++ [⟨none, phone⟩], Except.error e)
    | Except.ok (some cid) =>
        if cid ≠ "" then (reqs ++ [⟨none, phone⟩], Except.ok (some cid))
        else (reqs ++ [⟨none, phone⟩], Except.ok none)
    | Except.ok none => (reqs ++ [⟨none, phone⟩], Except.ok none)
  else (reqs, Except.ok none)

/-- `find_existing_contact` (import_contacts_streamlit.py, lines 79-100):
query by email first, short-circuit on a truthy match, then query by phone.
The returned pair is (filters issued in order, result or raised error). -/
def find_existing_contact (remote : ContactFilter → Except String (List String))
    (email phone : Option String) :
    List ContactFilter × Except String (Option String) :=
  if strOptTruthy email then
    match query_step remote ⟨email, none⟩ with
    | Except.error e => ([⟨email, none⟩], Except.error e)
    | Except.ok (some cid) =>
        if cid ≠ "" then ([⟨email, none⟩], Except.ok (some cid))
        else phone_lookup remote phone [⟨email, none⟩]
    | Except.ok none => phone_lookup remote phone [⟨email, none⟩]
  else phone_lookup remote phone []

/-- Parsed body of a `crm.contact.add` response. -/
structure AddResponse where
  result : Option String
  error_description : Option String
deriving DecidableEq, Repr

/-- Stand-in for `json.dumps(data)` on an add response. -/
def json_dump (d : AddResponse) : String :=
  "result=" ++ (match d.result with | some s => s | none => "null") ++
  "; error_description=" ++
  (match d.error_description with | some s => s | none => "null")

/-- `data.get("error_description") or json.dumps(data)`. -/
def add_error_text (d : AddResponse) : String :=
  match d.error_description with
  | some s => if s ≠ "" then s else json_dump d
  | none => json_dump d

/-- `add_contact` (import_contacts_streamlit.py, lines 102-111): a truthy
`result` yields (id, "Created"); otherwise no id and the error text. The
`post` oracle may raise. -/
def add_contact (post : StPayload → Except String AddResponse)
    (fields : StPayload) : Except String (Option String × String) :=
  match post fields with
  | Except.error e => Except.error e
  | Except.ok data =>
      match data.result with
      | some r =>
          if r ≠ "" then Except.ok (some r, "Created")
          else Except.ok (none, add_error_text data)
      | none => Except.ok (none, add_error_text data)

/-- The remote CRM as seen by the streamlit import loop. -/
structure Remote where
  search : ContactFilter → Except String (List String)
  create : StPayload → Except String AddResponse

/-- Lines 239-244 of the import loop: the first entry's VALUE when the
payload holds a non-empty list under `key`, else None. -/
def payload_first_value (payload : StPayload) (key : String) : Option String :=
  match dictGet payload key with
  | some (FieldValue.multi (e :: _)) => some e.VALUE
  | _ => none

/-- The body of the `try` block of the streamlit import loop (lines 246-254):
optional duplicate lookup, then `add_contact` unless a truthy existing id was
found. An `Except.error` models an exception reaching the `except` handler. -/
def row_attempt (remote : Remote) (dup_check : Bool) (payload : StPayload)
    (email phone : Option String) : Except String (Option String × String) :=
  match (if dup_check && (strOptTruthy email || strOptTruthy phone) then
          (find_existing_contact remote.search email phone).2
         else Except.ok none) with
  | Except.error e => Except.error e
  | Except.ok (some cid) =>
      if cid ≠ "" then Except.ok (some cid, "DuplicateFound")
      else add_contact remote.create payload
  | Except.ok none => add_contact remote.create payload

/-- One line of the result log (lines 258-263 / 267-272). -/
structure StLogEntry where
  row : Nat
  result : String
  contact_id : String
  payload : StPayload
deriving DecidableEq, Repr

/-- Processing of one row of the streamlit import loop: the id appended to
`ids` and the log entry appended to `logs` (`idx` is the 0-based row index). -/
def outcome_of (x : Except String (Option String × String)) (n : Nat)
    (p : StPayload) : Option String × StLogEntry :=
  match x with
  | Except.ok (contact_id, result) =>
      (contact_id, ⟨n, result, contact_id.getD "", p⟩)
  | Except.error e => (none, ⟨n, "Error: " ++ e, "", p⟩)

def row_outcome (remote : Remote) (dup_check : Bool)
    (mapping : List (String × String)) (row : Row) (idx : Nat) :
    Option String × StLogEntry :=
  outcome_of
    (row_attempt remote dup_check (build_payload row mapping)
      (payload_first_value (build_payload row mapping) "EMAIL")
      (payload_first_value (build_payload row mapping) "PHONE"))
    (idx + 1) (build_payload row mapping)

/-- The streamlit import loop (lines 235-274) over a list of rows, returning
the accumulated `ids` and `logs` lists in row order. -/
def import_loop (remote : Remote) (dup_check : Bool)
    (mapping : List (String × String)) :
    List Row → Nat → List (Option String) × List StLogEntry
  | [], _ => ([], [])
  | r :: rest, idx =>
    let h := row_outcome remote dup_check mapping r idx
    let t := import_loop remote dup_check mapping rest (idx + 1)
    (h.1 :: t.1, h.2 :: t.2)

/-- `ok_count` (line 277): rows whose id is truthy. -/
def ok_count (ids : List (Option String)) : Nat :=
  (ids.filter (fun i => strOptTruthy i)).length

/-- `fail_count` (line 278): `total - ok_count`. -/
def fail_count (ids : List (Option String)) (total : Nat) : Nat :=
  total - ok_count ids

/-- A dataframe / worksheet: header names plus rows of cells. -/
structure DataTable where
  header : List String
  rows : List (List CellValue)
deriving DecidableEq, Repr

/-- A remote id written into the output table: the id string, or a blank
(NaN / empty) cell when absent. -/
def id_cell : Option String → CellValue
  | some s => CellValue.str s
  | none => CellValue.null

/-- Pandas column assignment `df[name] = vals`: overwrite the column in place
when it exists, else append it as a new trailing column. -/
def df_assign_column (df : DataTable) (name : String)
    (vals : List (Option String)) : DataTable :=
  if df.header.contains name then
    ⟨df.header,
     (df.rows.zip vals).map (fun p => p.1.set (df.header.indexOf name) (id_cell p.2))⟩
  else
    ⟨df.header ++ [name], (df.rows.zip vals).map (fun p => p.1 ++ [id_cell p.2])⟩

/-- `make_excel_with_ids` (import_contacts_streamlit.py, lines 137-144): a
copy of the input table with the ids assigned to column "BITRIX_ID". -/
def make_excel_with_ids (df_original : DataTable)
    (id_list : List (Option String)) : DataTable :=
  df_assign_column df_original "BITRIX_ID" id_list

/-- The metadata of one remote field: its `type` tag (absent modelled as
`none`) and its `isReadOnly` flag (`v.get("isReadOnly", False)`). -/
structure FieldMeta where
  type : Option String
  isReadOnly : Bool
deriving DecidableEq, Repr

/-- The fixed allow-set of writable field types (identical in both scripts). -/
def allowed_types : List String :=
  ["string", "integer", "double", "boolean", "enumeration", "date", "datetime"]

/-- `v.get("type") in allowed`. -/
def type_allowed : Option String → Bool
  | some t => decide (t ∈ allowed_types)
  | none => false

/-- The filter of `fetch_contact_fields` (import_contacts_streamlit.py, lines
40-44), applied to the parsed `result` catalog: keep fields whose type is in
the allow-set and whose read-only flag is false. -/
def fetch_contact_fields (catalog : List (String × FieldMeta)) :
    List (String × FieldMeta) :=
  catalog.filter (fun kv => type_allowed kv.2.type && !kv.2.isReadOnly)

namespace Tk

/-- Python truthiness of a raw cell (`if value:` in run_import, line 129). -/
def truthy : CellValue → Bool
  | CellValue.null => false
  | CellValue.str s => decide (s ≠ "")
  | CellValue.int n => decide (n ≠ 0)
  | CellValue.boolean b => b
  | CellValue.timestamp _ _ _ _ _ _ => true

/-- Truthiness of an optional raw cell (default argument None). -/
def opt_truthy : Option CellValue → Bool
  | none => false
  | some v => truthy v

/-- A value in the tkinter `contact_data["fields"]` dict: the raw cell value,
or a single-entry multifield list whose VALUE is the raw cell value (no
sanitization happens in this variant). -/
inductive FieldValue where
  | scalar : CellValue → FieldValue
  | multi : List (CellValue × String) → FieldValue
deriving DecidableEq, Repr

/-- The tkinter contact payload dict. -/
abbrev Payload := List (String × Tk.FieldValue)

/-- The per-column loop of `run_import` (import_contacts.py, lines 126-137):
falsy cells are skipped; an EMAIL / PHONE column assigns a fresh one-entry
list (overwriting any earlier one) and remembers the value; every other
column assigns the raw value. -/
def build_loop (row : Row) :
    List (String × String) → Tk.Payload → Option CellValue → Option CellValue →
    Tk.Payload × Option CellValue × Option CellValue
  | [], fields, email, phone => (fields, email, phone)
  | (col, fid) :: rest, fields, email, phone =>
    if truthy (row col) then
      if fid = "EMAIL" then
        build_loop row rest
          (dictSet fields "EMAIL" (Tk.FieldValue.multi [(row col, "WORK")]))
          (some (row col)) phone
      else if fid = "PHONE" then
        build_loop row rest
          (dictSet fields "PHONE" (Tk.FieldValue.multi [(row col, "WORK")]))
          email (some (row col))
      else
        build_loop row rest (dictSet fields fid (Tk.FieldValue.scalar (row col)))
          email phone
    else build_loop row rest fields email phone

/-- The contact data, email and phone extracted from one row. -/
def build_contact_data (row : Row) (mappings : List (String × String)) :
    Tk.Payload × Option CellValue × Option CellValue :=
  build_loop row mappings [] none none

/-- The single combined filter dict built by the tkinter
`find_existing_contact` (import_contacts.py, lines 90-104). -/
structure ContactFilter where
  EMAIL : Option CellValue
  PHONE : Option CellValue
deriving DecidableEq, Repr

/-- `find_existing_contact` (import_contacts.py, lines 90-104): build one
filter dict holding the truthy identity values, return None without any
request when it is empty, else issue a single query with both filters and
take the first result's ID. -/
def find_existing_contact
    (remote : Tk.ContactFilter → Except String (List String))
    (email phone : Option CellValue) :
    List Tk.ContactFilter × Except String (Option String) :=
  let filters : Tk.ContactFilter :=
    ⟨if opt_truthy email then email else none,
     if opt_truthy phone then phone else none⟩
  if filters.EMAIL = none ∧ filters.PHONE = none then ([], Except.ok none)
  else
    match remote filters with
    | Except.error e => ([filters], Except.error e)
    | Except.ok res => ([filters], Except.ok res.head?)

/-- The remote CRM as seen by the tkinter `run_import`. -/
structure Remote where
  search : Tk.ContactFilter → Except String (List String)
  create : Tk.Payload → Except String (Option String)

/-- The create half of the row body (import_contacts.py, lines 149-157):
a truthy new id counts one success and is written to the sheet, a falsy or
missing id counts one failure. -/
def create_step (remote : Tk.Remote) (data : Tk.Payload) :
    Option String × Nat × Nat :=
  match remote.create data with
  | Except.error _ => (none, 0, 1)
  | Except.ok (some id) => if id ≠ "" then (some id, 1, 0) else (none, 0, 1)
  | Except.ok none => (none, 0, 1)

/-- One iteration of the `run_import` row loop (import_contacts.py, lines
121-160): returns the BITRIX_ID cell written for the row (None = left blank)
and the increments of `success_count` and `fail_count`. A duplicate match
writes the existing id but increments neither counter; any exception counts
one failure and processing continues. -/
def row_result (remote : Tk.Remote) (check_duplicates : Bool)
    (mappings : List (String × String)) (row : Row) :
    Option String × Nat × Nat :=
  let bd := build_contact_data row mappings
  match (if check_duplicates then
          (find_existing_contact remote.search bd.2.1 bd.2.2).2
         else Except.ok none) with
  | Except.error _ => (none, 0, 1)
  | Except.ok (some id) =>
      if id ≠ "" then (some id, 0, 0) else create_step remote bd.1
  | Except.ok none => create_step remote bd.1

/-- The whole `run_import` row loop: per-row cells plus the two counters. -/
def run_import_loop (remote : Tk.Remote) (check_duplicates : Bool)
    (mappings : List (String × String)) :
    List Row → List (Option String) × Nat × Nat
  | [] => ([], 0, 0)
  | r :: rest =>
    let h := row_result remote check_duplicates mappings r
    let t := run_import_loop remote check_duplicates mappings rest
    (h.1 :: t.1, h.2.1 + t.2.1, h.2.2 + t.2.2)

/-- The filter of `fetch_bitrix_fields` (import_contacts.py, lines 29-30):
the identifiers whose type is in the allow-set and which are not read-only. -/
def fetch_bitrix_fields (catalog : List (String × FieldMeta)) : List String :=
  (catalog.filter (fun kv => type_allowed kv.2.type && !kv.2.isReadOnly)).map
    Prod.fst

end Tk

lemma normalize_webhook_fixed (v : List Char) (hv : rest_suffix <:+ v) :
    normalize_webhook (v ++ ['/']) = v ++ ['/'] := by
  have hne : v ++ ['/'] ≠ [] := by simp
  unfold normalize_webhook
  rw [if_neg hne, rstrip_slash_append_slash, rstrip_slash_of_rest_suffix v hv]
  show (if rest_suffix <:+ v then v else v ++ rest_suffix) ++ ['/'] = v ++ ['/']
  rw [if_pos hv]

/-- C10: for every non-empty webhook string (modelled as a character list),
`normalize_webhook` yields a string ending in "/rest/" — appending a "/rest"
segment whenever the input does not already end in one — and
`normalize_webhook` is idempotent. -/
theorem c10_normalize_webhook (u : List Char) (h : u ≠ []) :
    (rest_suffix ++ ['/']) <:+ normalize_webhook u ∧
    normalize_webhook (normalize_webhook u) = normalize_webhook u := by
  have hunfold : normalize_webhook u =
      (if rest_suffix <:+ rstrip_slash u then rstrip_slash u
       else rstrip_slash u ++ rest_suffix) ++ ['/'] := by
    unfold normalize_webhook
    rw [if_neg h]
  by_cases hs : rest_suffix <:+ rstrip_slash u
  · rw [hunfold, if_pos hs]
    refine ⟨?_, normalize_webhook_fixed _ hs⟩
    obtain ⟨w, hw⟩ := hs
    exact ⟨w, by rw [← List.append_assoc, hw]⟩
  · rw [hunfold, if_neg hs]
    have hs2 : rest_suffix <:+ rstrip_slash u ++ rest_suffix :=
      List.suffix_append _ _
    refine ⟨?_, normalize_webhook_fixed _ hs2⟩
    exact ⟨rstrip_slash u, by rw [← List.append_assoc]⟩

/-- Witness for C10 at the concrete one-character input "x". -/
theorem c10_witness :
    (['x'] : List Char) ≠ [] ∧
    ((rest_suffix ++ ['/']) <:+ normalize_webhook ['x'] ∧
      normalize_webhook (normalize_webhook ['x']) = normalize_webhook ['x']) :=
  ⟨by decide, c10_normalize_webhook ['x'] (by decide)⟩

/-- C8 (amended to the streamlit variant): `sanitize_value` maps a timestamp
cell to the ISO calendar-date string with the time of day truncated — the
concrete date 2024-03-05 maps to exactly "2024-03-05", also through
`build_payload` — and every other non-empty scalar passes through unchanged. -/
theorem c8_date_coercion_streamlit :
    (∀ y m d hh mi ss, sanitize_value (CellValue.timestamp y m d hh mi ss) =
        some (PyVal.str (iso_date y m d))) ∧
    iso_date 2024 3 5 = "2024-03-05" ∧
    (∀ (row : Row) (c fid : String) (y m d hh mi ss : Nat),
        fid ≠ "EMAIL" → fid ≠ "PHONE" →
        row c = CellValue.timestamp y m d hh mi ss →
        build_payload row [(c, fid)] =
          [(fid, FieldValue.scalar (PyVal.str (iso_date y m d)))]) ∧
    (∀ s, sanitize_value (CellValue.str s) = some (PyVal.str s)) ∧
    (∀ n, sanitize_value (CellValue.int n) = some (PyVal.int n)) ∧
    (∀ b, sanitize_value (CellValue.boolean b) = some (PyVal.boolean b)) := by
  refine ⟨fun y m d hh mi ss => rfl, by decide, ?_,
    fun s => rfl, fun n => rfl, fun b => rfl⟩
  intro row c fid y m d hh mi ss he hp hrow
  simp [build_payload, build_payload_loop, hrow, sanitize_value, he, hp, dictSet]

/-- Witness for C8 at a concrete row holding the timestamp
2024-03-05 14:30:00 mapped to a plain field. -/
theorem c8_witness :
    build_payload (fun _ => CellValue.timestamp 2024 3 5 14 30 0)
        [("D", "BIRTHDATE")] =
      [("BIRTHDATE", FieldValue.scalar (PyVal.str "2024-03-05"))] := by
  have h := c8_date_coercion_streamlit.2.2.1
    (fun _ => CellValue.timestamp 2024 3 5 14 30 0) "D" "BIRTHDATE"
    2024 3 5 14 30 0 (by decide) (by decide) rfl
  have h2 : iso_date 2024 3 5 = "2024-03-05" := by decide
  rw [h, h2]

/-- Counterexample for C8 as stated: the tkinter variant's payload building
(run_import, lines 126-137) performs no date coercion — a timestamp cell is
placed into the payload as the raw timestamp, not as "2024-03-05". -/
theorem c8_tk_raw_date :
    (Tk.build_contact_data (fun _ => CellValue.timestamp 2024 3 5 0 0 0)
        [("D", "BIRTHDATE")]).1 =
      [("BIRTHDATE", Tk.FieldValue.scalar (CellValue.timestamp 2024 3 5 0 0 0))] ∧
    Tk.FieldValue.scalar (CellValue.timestamp 2024 3 5 0 0 0) ≠
      Tk.FieldValue.scalar (CellValue.str "2024-03-05") := by
  exact ⟨by decide, by decide⟩

lemma sanitize_value_eq_none (v : CellValue) :
    sanitize_value v = none ↔ v = CellValue.null := by
  cases v <;> simp [sanitize_value]

lemma build_payload_loop_filter_null (row : Row) :
    ∀ (m : List (String × String)) (fields : StPayload)
      (emails phones : List MultiEntry),
    build_payload_loop row
        (m.filter (fun cm => decide (row cm.1 ≠ CellValue.null)))
        fields emails phones =
      build_payload_loop row m fields emails phones := by
  intro m
  induction m with
  | nil => intro fields emails phones; rfl
  | cons head rest ih =>
    intro fields emails phones
    obtain ⟨col, fid⟩ := head
    rw [List.filter_cons]
    by_cases hn : row col = CellValue.null
    · have hd : decide (row (col, fid).1 ≠ CellValue.null) = false := by
        simp [hn]
      rw [hd]
      simp only [Bool.false_eq_true, if_false]
      rw [ih]
      have hs : sanitize_value (row col) = none :=
        (sanitize_value_eq_none _).mpr hn
      conv_rhs => rw [build_payload_loop]
      rw [hs]
    · have hd : decide (row (col, fid).1 ≠ CellValue.null) = true := by
        simp [hn]
      rw [hd]
      simp only [if_true]
      cases hsv : sanitize_value (row col) with
      | none => exact absurd ((sanitize_value_eq_none _).mp hsv) hn
      | some raw =>
        rw [build_payload_loop, build_payload_loop, hsv]
        by_cases he : fid = "EMAIL"
        · simp only [he, if_pos rfl]
          exact ih _ _ _
        · by_cases hp : fid = "PHONE"
          · simp only [he, hp, if_pos rfl, if_neg (by decide : ¬("PHONE" = "EMAIL"))]
            exact ih _ _ _
          · simp only [if_neg he, if_neg hp]
            exact ih _ _ _

lemma build_payload_single_email (row : Row) (c v : String)
    (hrow : row c = CellValue.str v) :
    build_payload row [(c, "EMAIL")] =
      if py_strip v = "" then [("EMAIL", FieldValue.multi [])]
      else [("EMAIL", FieldValue.multi [⟨py_strip v, "WORK"⟩])] := by
  by_cases hv : py_strip v = "" <;>
    simp [build_payload, build_payload_loop, hrow, sanitize_value, pyStr,
      ensure_multifield, ensure_aux, vt_or_work, dictSet, hv]

/-- C2 (amended to the streamlit variant): a mapped column whose cell is
null contributes no key to the payload (null-valued columns can be removed
from the mapping without changing the result); an EMAIL column with a null
cell produces no EMAIL key; with value "a@x.com" it produces exactly
`EMAIL: [{VALUE:"a@x.com", VALUE_TYPE:"WORK"}]`; but an EMAIL column whose
cell is a non-null blank string produces an EMAIL key holding the empty
list, since `build_payload` tests the pending list before cleaning it. -/
theorem c2_absence_semantics_streamlit :
    (∀ (row : Row) (mapping : List (String × String)),
      build_payload row
          (mapping.filter (fun cm => decide (row cm.1 ≠ CellValue.null))) =
        build_payload row mapping) ∧
    (∀ (row : Row) (c : String), row c = CellValue.null →
      build_payload row [(c, "EMAIL")] = []) ∧
    (∀ (row : Row) (c : String), row c = CellValue.str "a@x.com" →
      build_payload row [(c, "EMAIL")] =
        [("EMAIL", FieldValue.multi [⟨"a@x.com", "WORK"⟩])]) ∧
    (∀ (row : Row) (c v : String), row c = CellValue.str v → py_strip v = "" →
      build_payload row [(c, "EMAIL")] = [("EMAIL", FieldValue.multi [])]) := by
  refine ⟨?_, ?_, ?_, ?_⟩
  · intro row mapping
    simp only [build_payload, build_payload_loop_filter_null]
  · intro row c hrow
    simp [build_payload, build_payload_loop, hrow, sanitize_value]
  · intro row c hrow
    rw [build_payload_single_email row c "a@x.com" hrow]
    have : py_strip "a@x.com" = "a@x.com" := by decide
    rw [this]
    simp
  · intro row c v hrow hblank
    rw [build_payload_single_email row c v hrow, if_pos hblank]

/-- Witness for C2 at concrete rows: a null EMAIL cell yields an empty
payload, and the value "a@x.com" yields the one-entry EMAIL list. -/
theorem c2_witness :
    build_payload (fun _ => CellValue.null) [("Email", "EMAIL")] = [] ∧
    build_payload (fun _ => CellValue.str "a@x.com") [("Email", "EMAIL")] =
      [("EMAIL", FieldValue.multi [⟨"a@x.com", "WORK"⟩])] :=
  ⟨c2_absence_semantics_streamlit.2.1 (fun _ => CellValue.null) "Email" rfl,
   c2_absence_semantics_streamlit.2.2.1 (fun _ => CellValue.str "a@x.com")
     "Email" rfl⟩

/-- Counterexample for C2 as stated: a column mapped to EMAIL whose cell is
the empty string "" makes `build_payload` emit an EMAIL key holding the
empty list — the key is not omitted, because the guard `if emails:` tests
the pending list before `ensure_multifield` drops its blank entry. -/
theorem c2_blank_email_key :
    build_payload (fun _ => CellValue.str "") [("Email", "EMAIL")] =
      [("EMAIL", FieldValue.multi [])] ∧
    dictGet (build_payload (fun _ => CellValue.str "") [("Email", "EMAIL")])
      "EMAIL" ≠ none := by
  exact ⟨by decide, by decide⟩

/-- C1 (amended to the streamlit variant): `ensure_multifield` equals the
first-seen-order deduplication by the (VALUE_TYPE, VALUE) key of the cleaned
entries with blanks dropped; and for two columns both mapped to PHONE,
`build_payload` yields a single entry when the stripped values coincide and
both entries in first-seen order when they differ. -/
theorem c1_multifield_aggregation :
    (∀ l, ensure_multifield l = dedup_first_seen (clean_list l)) ∧
    (∀ (row : Row) (c d v w : String),
      row c = CellValue.str v → row d = CellValue.str w →
      py_strip v ≠ "" → py_strip w ≠ "" →
      dictGet (build_payload row [(c, "PHONE"), (d, "PHONE")]) "PHONE" =
        some (FieldValue.multi
          (if py_strip w = py_strip v then [⟨py_strip v, "WORK"⟩]
           else [⟨py_strip v, "WORK"⟩, ⟨py_strip w, "WORK"⟩]))) := by
  refine ⟨ensure_multifield_eq, ?_⟩
  intro row c d v w hc hd hv hw
  by_cases hvw : py_strip w = py_strip v <;>
    simp [build_payload, build_payload_loop, hc, hd, sanitize_value, pyStr,
      ensure_multifield, ensure_aux, vt_or_work, dictSet, dictGet, hv, hw,
      hvw, List.find?]

/-- Witness for C1: two PHONE columns with values "1" and "1" yield one
entry; with "1" and "2" they yield both entries in first-seen order. -/
theorem c1_witness :
    dictGet (build_payload (fun _ => CellValue.str "1")
        [("P1", "PHONE"), ("P2", "PHONE")]) "PHONE" =
      some (FieldValue.multi [⟨"1", "WORK"⟩]) ∧
    dictGet (build_payload
        (fun col => if col = "P1" then CellValue.str "1" else CellValue.str "2")
        [("P1", "PHONE"), ("P2", "PHONE")]) "PHONE" =
      some (FieldValue.multi [⟨"1", "WORK"⟩, ⟨"2", "WORK"⟩]) := by
  constructor
  · have h := c1_multifield_aggregation.2 (fun _ => CellValue.str "1")
      "P1" "P2" "1" "1" rfl rfl (by decide) (by decide)
    rw [h]
    decide
  · have h := c1_multifield_aggregation.2
      (fun col => if col = "P1" then CellValue.str "1" else CellValue.str "2")
      "P1" "P2" "1" "2" (by decide) (by decide) (by decide) (by decide)
    rw [h]
    decide

/-- Counterexample for C1 as stated: in the tkinter variant (run_import,
lines 126-137) a later PHONE column overwrites the earlier one, so two
PHONE columns holding "1" and "2" leave only the last entry in the payload
rather than both entries in first-seen order. -/
theorem c1_tk_overwrite :
    (Tk.build_contact_data
        (fun col => if col = "P1" then CellValue.str "1" else CellValue.str "2")
        [("P1", "PHONE"), ("P2", "PHONE")]).1 =
      [("PHONE", Tk.FieldValue.multi [(CellValue.str "2", "WORK")])] ∧
    [("PHONE", Tk.FieldValue.multi [(CellValue.str "2", "WORK")])] ≠
      [("PHONE", Tk.FieldValue.multi
        [(CellValue.str "1", "WORK"), (CellValue.str "2", "WORK")])] := by
  exact ⟨by decide, by decide⟩

/-- C3 (amended to the streamlit variant): with neither identity value
truthy the resolver returns None having issued zero requests; with a truthy
email whose query returns a truthy first match it returns that id having
issued only the email filter (whose PHONE component is absent); and an
all-empty-result remote yields a normal None, never an error. -/
theorem c3_resolver_streamlit :
    (∀ (remote : ContactFilter → Except String (List String))
       (email phone : Option String),
      strOptTruthy email = false → strOptTruthy phone = false →
      find_existing_contact remote email phone = ([], Except.ok none)) ∧
    (∀ (remote : ContactFilter → Except String (List String))
       (email phone : Option String) (cid : String) (rest : List String),
      strOptTruthy email = true →
      remote ⟨email, none⟩ = Except.ok (cid :: rest) → cid ≠ "" →
      find_existing_contact remote email phone =
        ([⟨email, none⟩], Except.ok (some cid)) ∧
        (⟨email, none⟩ : ContactFilter).PHONE = none) ∧
    (∀ (email phone : Option String),
      (find_existing_contact (fun _ => Except.ok []) email phone).2 =
        Except.ok none) := by
  refine ⟨?_, ?_, ?_⟩
  · intro remote email phone he hp
    simp [find_existing_contact, he, phone_lookup, hp]
  · intro remote email phone cid rest he hq hcid
    refine ⟨?_, rfl⟩
    simp [find_existing_contact, he, query_step, hq, hcid]
  · intro email phone
    by_cases he : strOptTruthy email = true <;>
      by_cases hp : strOptTruthy phone = true <;>
        simp [find_existing_contact, phone_lookup, query_step, he, hp]

/-- Witness for C3 at concrete inputs: no identity values issue no request;
an email match returns immediately; empty results mean not-found. -/
theorem c3_witness :
    find_existing_contact (fun _ => Except.ok ["9"]) none none =
      ([], Except.ok none) ∧
    find_existing_contact (fun _ => Except.ok ["9"]) (some "a@x.com") (some "55") =
      ([⟨some "a@x.com", none⟩], Except.ok (some "9")) ∧
    (find_existing_contact (fun _ => Except.ok []) (some "a@x.com") none).2 =
      Except.ok none := by
  refine ⟨c3_resolver_streamlit.1 _ none none rfl rfl, ?_, ?_⟩
  · exact (c3_resolver_streamlit.2.1 (fun _ => Except.ok ["9"])
      (some "a@x.com") (some "55") "9" [] (by decide) rfl (by decide)).1
  · exact c3_resolver_streamlit.2.2 (some "a@x.com") none

/-- Counterexample for C3 as stated: the tkinter variant
(import_contacts.py, lines 90-104) issues one combined query whose filter
carries both the EMAIL and the PHONE key, so a phone filter is sent even
though the email matches. -/
theorem c3_tk_combined_query :
    Tk.find_existing_contact (fun _ => Except.ok ["7"])
        (some (CellValue.str "a@x.com")) (some (CellValue.str "55")) =
      ([⟨some (CellValue.str "a@x.com"), some (CellValue.str "55")⟩],
        Except.ok (some "7")) ∧
    (⟨some (CellValue.str "a@x.com"), some (CellValue.str "55")⟩ :
        Tk.ContactFilter).PHONE ≠ none := by
  constructor
  · rfl
  · decide

lemma tk_opt_truthy_ne_none {o : Option CellValue}
    (h : Tk.opt_truthy o = true) : o ≠ none := by
  cases o with
  | none => simp [Tk.opt_truthy] at h
  | some v => simp

/-- A streamlit remote whose every call raises a connection error. -/
def st_fail_remote : Remote :=
  ⟨fun _ => Except.error "ConnectionError", fun _ => Except.error "ConnectionError"⟩

/-- A tkinter remote whose every call raises a connection error. -/
def tk_fail_remote : Tk.Remote :=
  ⟨fun _ => Except.error "ConnectionError", fun _ => Except.error "ConnectionError"⟩

/-- C4: in the streamlit loop, a row whose try-block raises yields the id
None and an "Error: ..." log entry with an empty contact_id, and the loop
output for the remaining rows is exactly the loop run on those rows — no
row's failure aborts the batch. In the tkinter loop, with a remote that
always raises, every row is counted as one failure, its cell stays blank
and all rows are still processed. -/
theorem c4_row_error_isolation :
    (∀ (remote : Remote) (dup_check : Bool) (mapping : List (String × String))
       (r : Row) (rest : List Row) (idx : Nat) (e : String),
      row_attempt remote dup_check (build_payload r mapping)
          (payload_first_value (build_payload r mapping) "EMAIL")
          (payload_first_value (build_payload r mapping) "PHONE") =
        Except.error e →
      import_loop remote dup_check mapping (r :: rest) idx =
        (none :: (import_loop remote dup_check mapping rest (idx + 1)).1,
         ⟨idx + 1, "Error: " ++ e, "", build_payload r mapping⟩ ::
           (import_loop remote dup_check mapping rest (idx + 1)).2)) ∧
    (∀ (check : Bool) (mappings : List (String × String)) (rows : List Row),
      Tk.run_import_loop tk_fail_remote check mappings rows =
        (rows.map (fun _ => none), 0, rows.length)) := by
  constructor
  · intro remote dup_check mapping r rest idx e h
    have hro : row_outcome remote dup_check mapping r idx =
        (none, ⟨idx + 1, "Error: " ++ e, "", build_payload r mapping⟩) := by
      simp only [row_outcome]
      rw [h]
      rfl
    simp only [import_loop, hro]
  · intro check mappings rows
    have hrow : ∀ r, Tk.row_result tk_fail_remote check mappings r =
        (none, 0, 1) := by
      intro r
      cases check with
      | false => rfl
      | true =>
        have hfind : ∀ (email phone : Option CellValue),
            (Tk.find_existing_contact tk_fail_remote.search email phone).2 =
              Except.ok none ∨
            (Tk.find_existing_contact tk_fail_remote.search email phone).2 =
              Except.error "ConnectionError" := by
          intro email phone
          cases he : Tk.opt_truthy email with
          | false =>
            cases hp : Tk.opt_truthy phone with
            | false => left; simp [Tk.find_existing_contact, he, hp]
            | true =>
              right
              have hpn := tk_opt_truthy_ne_none hp
              simp [Tk.find_existing_contact, he, hp, hpn, tk_fail_remote]
          | true =>
            right
            have hen := tk_opt_truthy_ne_none he
            cases hp : Tk.opt_truthy phone <;>
              simp [Tk.find_existing_contact, he, hp, hen, tk_fail_remote]
        rcases hfind (Tk.build_contact_data r mappings).2.1
            (Tk.build_contact_data r mappings).2.2 with hf | hf <;>
          (simp only [Tk.row_result]; rw [if_pos trivial, hf]; try rfl)
    induction rows with
    | nil => rfl
    | cons r rest ih =>
      simp [Tk.run_import_loop, hrow, ih, Nat.add_comm]

/-- Witness for C4: with an always-raising remote and one trailing row, the
failing first row logs an error and the second row is still processed. -/
theorem c4_witness :
    row_attempt st_fail_remote false
        (build_payload (fun _ => CellValue.str "x") [("A", "NAME")])
        (payload_first_value
          (build_payload (fun _ => CellValue.str "x") [("A", "NAME")]) "EMAIL")
        (payload_first_value
          (build_payload (fun _ => CellValue.str "x") [("A", "NAME")]) "PHONE") =
      Except.error "ConnectionError" ∧
    import_loop st_fail_remote false [("A", "NAME")]
        [fun _ => CellValue.str "x", fun _ => CellValue.str "y"] 0 =
      ([none, none],
       [⟨1, "Error: ConnectionError", "",
          build_payload (fun _ => CellValue.str "x") [("A", "NAME")]⟩,
        ⟨2, "Error: ConnectionError", "",
          build_payload (fun _ => CellValue.str "y") [("A", "NAME")]⟩]) ∧
    Tk.run_import_loop tk_fail_remote true [("A", "NAME")]
        [fun _ => CellValue.str "x", fun _ => CellValue.str "y"] =
      ([none, none], 0, 2) := by
  refine ⟨rfl, ?_, ?_⟩
  · have h1 := c4_row_error_isolation.1 st_fail_remote false [("A", "NAME")]
      (fun _ => CellValue.str "x") [fun _ => CellValue.str "y"] 0
      "ConnectionError" rfl
    have h2 := c4_row_error_isolation.1 st_fail_remote false [("A", "NAME")]
      (fun _ => CellValue.str "y") [] 1 "ConnectionError" rfl
    rw [h1, h2]
    rfl
  · exact c4_row_error_isolation.2 true [("A", "NAME")]
      [fun _ => CellValue.str "x", fun _ => CellValue.str "y"]

lemma import_loop_lengths (remote : Remote) (dup_check : Bool)
    (mapping : List (String × String)) :
    ∀ (rows : List Row) (idx : Nat),
      (import_loop remote dup_check mapping rows idx).1.length = rows.length ∧
      (import_loop remote dup_check mapping rows idx).2.length = rows.length := by
  intro rows
  induction rows with
  | nil => intro idx; exact ⟨rfl, rfl⟩
  | cons r rest ih =>
    intro idx
    simp only [import_loop, List.length_cons]
    exact ⟨by rw [(ih (idx + 1)).1], by rw [(ih (idx + 1)).2]⟩

lemma outcome_of_truthy (x : Except String (Option String × String))
    (n : Nat) (p : StPayload) :
    strOptTruthy (outcome_of x n p).1 =
      decide ((outcome_of x n p).2.contact_id ≠ "") := by
  cases x with
  | error e => simp [outcome_of, strOptTruthy]
  | ok q =>
    obtain ⟨cid, res⟩ := q
    cases cid with
    | none => simp [outcome_of, strOptTruthy]
    | some s => simp [outcome_of, strOptTruthy, Option.getD]

lemma row_outcome_truthy (remote : Remote) (dup_check : Bool)
    (mapping : List (String × String)) (r : Row) (idx : Nat) :
    strOptTruthy (row_outcome remote dup_check mapping r idx).1 =
      decide ((row_outcome remote dup_check mapping r idx).2.contact_id ≠ "") := by
  simp only [row_outcome]
  exact outcome_of_truthy _ _ _

/-- C5 (amended to the streamlit variant): over the whole loop, `ok_count`
equals the number of log entries with a non-empty contact_id,
`ok_count + fail_count` equals the number of rows, and whenever the duplicate
resolver returned a truthy id the row's attempt ends as DuplicateFound with
that non-empty id (hence it is counted as a success). -/
theorem c5_summary_counting :
    (∀ (remote : Remote) (dup_check : Bool) (mapping : List (String × String))
       (rows : List Row) (idx : Nat),
      ok_count (import_loop remote dup_check mapping rows idx).1 =
        ((import_loop remote dup_check mapping rows idx).2.filter
          (fun l => decide (l.contact_id ≠ ""))).length ∧
      ok_count (import_loop remote dup_check mapping rows idx).1 +
        fail_count (import_loop remote dup_check mapping rows idx).1
          rows.length = rows.length) ∧
    (∀ (remote : Remote) (payload : StPayload) (email phone : Option String)
       (cid : String),
      (find_existing_contact remote.search email phone).2 =
        Except.ok (some cid) →
      cid ≠ "" → (strOptTruthy email || strOptTruthy phone) = true →
      row_attempt remote true payload email phone =
        Except.ok (some cid, "DuplicateFound")) := by
  constructor
  · intro remote dup_check mapping rows idx
    have hcount : ∀ (rs : List Row) (i : Nat),
        ok_count (import_loop remote dup_check mapping rs i).1 =
          ((import_loop remote dup_check mapping rs i).2.filter
            (fun l => decide (l.contact_id ≠ ""))).length := by
      intro rs
      induction rs with
      | nil => intro i; rfl
      | cons r rest ih =>
        intro i
        simp only [import_loop, ok_count, List.filter_cons]
        rw [row_outcome_truthy remote dup_check mapping r i]
        cases hd : decide ((row_outcome remote dup_check mapping r i).2.contact_id ≠ "") with
        | false =>
          simp only [Bool.false_eq_true, if_false]
          exact ih i.succ
        | true =>
          simp only [if_true, List.length_cons]
          rw [← ok_count, ih i.succ]
    refine ⟨hcount rows idx, ?_⟩
    have hle : ok_count (import_loop remote dup_check mapping rows idx).1 ≤
        rows.length := by
      rw [← (import_loop_lengths remote dup_check mapping rows idx).1]
      exact List.length_filter_le _ _
    simp only [fail_count]
    omega
  · intro remote payload email phone cid hfound hcid htruthy
    simp [row_attempt, htruthy, hfound, hcid]

/-- Witness for C5: a remote that reports a duplicate "5" for the one row
and never creates yields one success log entry, counters 1 and 0, and a
DuplicateFound attempt. -/
theorem c5_witness :
    ok_count (import_loop ⟨fun _ => Except.ok ["5"],
        fun _ => Except.error "unreachable"⟩ true [("E", "EMAIL")]
        [fun _ => CellValue.str "a@x.com"] 0).1 =
      ((import_loop ⟨fun _ => Except.ok ["5"],
        fun _ => Except.error "unreachable"⟩ true [("E", "EMAIL")]
        [fun _ => CellValue.str "a@x.com"] 0).2.filter
          (fun l => decide (l.contact_id ≠ ""))).length ∧
    ok_count (import_loop ⟨fun _ => Except.ok ["5"],
        fun _ => Except.error "unreachable"⟩ true [("E", "EMAIL")]
        [fun _ => CellValue.str "a@x.com"] 0).1 +
      fail_count (import_loop ⟨fun _ => Except.ok ["5"],
        fun _ => Except.error "unreachable"⟩ true [("E", "EMAIL")]
        [fun _ => CellValue.str "a@x.com"] 0).1 1 = 1 ∧
    row_attempt ⟨fun _ => Except.ok ["5"], fun _ => Except.error "unreachable"⟩
        true [] (some "a@x.com") none = Except.ok (some "5", "DuplicateFound") := by
  refine ⟨(c5_summary_counting.1 _ true [("E", "EMAIL")]
      [fun _ => CellValue.str "a@x.com"] 0).1,
    (c5_summary_counting.1 _ true [("E", "EMAIL")]
      [fun _ => CellValue.str "a@x.com"] 0).2, ?_⟩
  exact c5_summary_counting.2 ⟨fun _ => Except.ok ["5"],
    fun _ => Except.error "unreachable"⟩ [] (some "a@x.com") none "5"
    rfl (by decide) (by decide)

/-- Counterexample for C5 as stated: in the tkinter run_import (lines
139-160) a DuplicateFound row increments neither counter, so with one row
resolved as a duplicate the success and failure counters are both 0 and
their sum differs from the row count 1. -/
theorem c5_tk_dup_uncounted :
    Tk.run_import_loop ⟨fun _ => Except.ok ["5"], fun _ => Except.ok (some "9")⟩
        true [("E", "EMAIL")] [fun _ => CellValue.str "a@x.com"] =
      ([some "5"], 0, 0) ∧ (0 : Nat) + 0 ≠ 1 := by
  exact ⟨rfl, by decide⟩

/-- C7: the streamlit loop produces exactly one id and one log entry per
data row, and the k-th log entry is exactly the outcome computed from the
k-th input row at offset idx + k — outcomes are in input row order and each
is fully determined by its own row. -/
theorem c7_outcome_log (remote : Remote) (dup_check : Bool)
    (mapping : List (String × String)) (rows : List Row) (idx : Nat) :
    (import_loop remote dup_check mapping rows idx).2.length = rows.length ∧
    (import_loop remote dup_check mapping rows idx).1.length = rows.length ∧
    ∀ (k : Nat) (h1 : k < (import_loop remote dup_check mapping rows idx).2.length)
      (h2 : k < rows.length),
      (import_loop remote dup_check mapping rows idx).2.get ⟨k, h1⟩ =
        (row_outcome remote dup_check mapping (rows.get ⟨k, h2⟩) (idx + k)).2 := by
  refine ⟨(import_loop_lengths remote dup_check mapping rows idx).2,
    (import_loop_lengths remote dup_check mapping rows idx).1, ?_⟩
  induction rows generalizing idx with
  | nil => intro k h1 h2; exact absurd h2 (Nat.not_lt_zero k)
  | cons r rest ih =>
    intro k h1 h2
    cases k with
    | zero => simp [import_loop]
    | succ k =>
      have h1' : k < (import_loop remote dup_check mapping rest (idx + 1)).2.length := by
        rw [(import_loop_lengths remote dup_check mapping rest (idx + 1)).2]
        exact Nat.lt_of_succ_lt_succ h2
      have h2' : k < rest.length := Nat.lt_of_succ_lt_succ h2
      have harith : idx + (k + 1) = idx + 1 + k := by omega
      simp only [import_loop, List.get_cons_succ]
      rw [harith]
      exact ih (idx + 1) k h1' h2'

/-- Witness for C7 at a concrete two-row input. -/
theorem c7_witness :
    (import_loop st_fail_remote false [("A", "NAME")]
        [fun _ => CellValue.str "x", fun _ => CellValue.str "y"] 0).2.length = 2 ∧
    (import_loop st_fail_remote false [("A", "NAME")]
        [fun _ => CellValue.str "x", fun _ => CellValue.str "y"] 0).2.get
        ⟨1, by decide⟩ =
      (row_outcome st_fail_remote false [("A", "NAME")]
        (fun _ => CellValue.str "y") 1).2 := by
  refine ⟨(c7_outcome_log st_fail_remote false [("A", "NAME")]
      [fun _ => CellValue.str "x", fun _ => CellValue.str "y"] 0).1, ?_⟩
  have h := (c7_outcome_log st_fail_remote false [("A", "NAME")]
      [fun _ => CellValue.str "x", fun _ => CellValue.str "y"] 0).2.2
      1 (by decide) (by decide)
  rw [h]
  rfl

lemma type_allowed_iff (o : Option String) :
    type_allowed o = true ↔ ∃ t, o = some t ∧ t ∈ allowed_types := by
  cases o <;> simp [type_allowed]

/-- C6 (amended): in both variants the fetched catalog is filtered to
exactly the fields whose type tag lies in the allow-set and whose read-only
flag is false — with no exception for EMAIL or PHONE, which are retained
only when they satisfy the same predicate. -/
theorem c6_fields_filter :
    (∀ (catalog : List (String × FieldMeta)) (k : String) (m : FieldMeta),
      (k, m) ∈ fetch_contact_fields catalog ↔
        (k, m) ∈ catalog ∧ (∃ t, m.type = some t ∧ t ∈ allowed_types) ∧
          m.isReadOnly = false) ∧
    (∀ (catalog : List (String × FieldMeta)) (k : String),
      k ∈ Tk.fetch_bitrix_fields catalog ↔
        ∃ m, (k, m) ∈ catalog ∧ (∃ t, m.type = some t ∧ t ∈ allowed_types) ∧
          m.isReadOnly = false) := by
  constructor
  · intro catalog k m
    simp [fetch_contact_fields, List.mem_filter, type_allowed_iff,
      Bool.and_eq_true, Bool.not_eq_true', and_assoc]
  · intro catalog k
    simp only [Tk.fetch_bitrix_fields, List.mem_map, List.mem_filter]
    constructor
    · rintro ⟨⟨k2, m⟩, ⟨hmem, hp⟩, rfl⟩
      rw [Bool.and_eq_true] at hp
      obtain ⟨ht, hro⟩ := hp
      exact ⟨m, hmem, (type_allowed_iff _).mp ht, by simpa using hro⟩
    · rintro ⟨m, hmem, ht, hro⟩
      refine ⟨(k, m), ⟨hmem, ?_⟩, rfl⟩
      rw [Bool.and_eq_true]
      exact ⟨(type_allowed_iff _).mpr ht, by simp [hro]⟩

/-- A concrete catalog in which EMAIL and PHONE carry the multifield type
tag, as the Bitrix contact schema reports them. -/
def c6_catalog : List (String × FieldMeta) :=
  [("EMAIL", ⟨some "crm_multifield", false⟩),
   ("PHONE", ⟨some "crm_multifield", false⟩),
   ("NAME", ⟨some "string", false⟩)]

/-- Witness for C6: a plain writable string field is retained by both
variants' filters. -/
theorem c6_witness :
    ("NAME", (⟨some "string", false⟩ : FieldMeta)) ∈
      fetch_contact_fields c6_catalog ∧
    "NAME" ∈ Tk.fetch_bitrix_fields c6_catalog := by
  constructor
  · exact (c6_fields_filter.1 c6_catalog "NAME" ⟨some "string", false⟩).mpr
      ⟨by decide, ⟨"string", rfl, by decide⟩, rfl⟩
  · exact (c6_fields_filter.2 c6_catalog "NAME").mpr
      ⟨⟨some "string", false⟩, by decide, ⟨"string", rfl, by decide⟩, rfl⟩

/-- Counterexample for C6 as stated: EMAIL and PHONE, whose type tag is not
in the allow-set, are dropped by both filters instead of being always
retained. -/
theorem c6_email_phone_dropped :
    fetch_contact_fields c6_catalog = [("NAME", ⟨some "string", false⟩)] ∧
    Tk.fetch_bitrix_fields c6_catalog = ["NAME"] ∧
    dictGet (fetch_contact_fields c6_catalog) "EMAIL" = none ∧
    dictGet (fetch_contact_fields c6_catalog) "PHONE" = none := by
  refine ⟨by decide, by decide, by decide, by decide⟩

/-- C9 (amended): when the input table has no column already named
"BITRIX_ID" and one id per row is supplied, the emitted table is a copy of
the input with exactly one appended trailing column named "BITRIX_ID" — not
"REMOTE_ID" — holding each row's identifier or a blank cell, with the
original columns and rows unchanged. -/
theorem c9_output_table (df : DataTable) (id_list : List (Option String))
    (hname : df.header.contains "BITRIX_ID" = false)
    (hlen : id_list.length = df.rows.length) :
    (make_excel_with_ids df id_list).header = df.header ++ ["BITRIX_ID"] ∧
    (make_excel_with_ids df id_list).rows.length = df.rows.length ∧
    ∀ (k : Nat) (h1 : k < (make_excel_with_ids df id_list).rows.length)
      (h2 : k < df.rows.length) (h3 : k < id_list.length),
      (make_excel_with_ids df id_list).rows.get ⟨k, h1⟩ =
        df.rows.get ⟨k, h2⟩ ++ [id_cell (id_list.get ⟨k, h3⟩)] := by
  have hform : make_excel_with_ids df id_list =
      ⟨df.header ++ ["BITRIX_ID"],
       (df.rows.zip id_list).map (fun p => p.1 ++ [id_cell p.2])⟩ := by
    simp only [make_excel_with_ids, df_assign_column, hname]
    rfl
  rw [hform]
  refine ⟨rfl, ?_, ?_⟩
  · simp [List.length_zip, hlen]
  · intro k h1 h2 h3
    simp [List.get_eq_getElem, List.getElem_map, List.getElem_zip]

/-- Witness for C9 at a concrete one-column, one-row table. -/
theorem c9_witness :
    (["Name"] : List String).contains "BITRIX_ID" = false ∧
    (make_excel_with_ids ⟨["Name"], [[CellValue.str "Ana"]]⟩ [some "5"]).header =
      ["Name"] ++ ["BITRIX_ID"] ∧
    (make_excel_with_ids ⟨["Name"], [[CellValue.str "Ana"]]⟩ [some "5"]).rows.length = 1 := by
  refine ⟨by decide, ?_, ?_⟩
  · exact (c9_output_table ⟨["Name"], [[CellValue.str "Ana"]]⟩ [some "5"]
      (by decide) rfl).1
  · exact (c9_output_table ⟨["Name"], [[CellValue.str "Ana"]]⟩ [some "5"]
      (by decide) rfl).2.1

/-- Counterexample for C9 as stated: the appended column is named
"BITRIX_ID", and no "REMOTE_ID" column exists in the output. -/
theorem c9_column_named_bitrix_id :
    (make_excel_with_ids ⟨["Name"], [[CellValue.str "Ana"]]⟩ [some "5"]).header =
      ["Name", "BITRIX_ID"] ∧
    "REMOTE_ID" ∉ (make_excel_with_ids ⟨["Name"], [[CellValue.str "Ana"]]⟩
      [some "5"]).header := by
  exact ⟨by decide, by decide⟩
